import Mathlib

/-!
Verification of the hot-reload development session of `mcman`
(`src/hot_reload/mod.rs`).

The session controller `DevSession::handle_commands` is embedded as a step
function over an explicit state (`DevState`) consuming an explicit stream of
loop events (`LoopEvent`), with the external collaborators (the rebuild
pipeline, the bootstrap collaborator, the spawn syscall, the inner
`WaitUntilExit` race winner) supplied as oracle data.  The three debounced
watcher callbacks (`create_config_watcher`, `create_servertoml_watcher`,
`create_hotreload_watcher`) are embedded as pure functions from a batch of
settled debounced events to the list of commands they enqueue (resp. the new
configuration snapshot).
-/

namespace Mcman

/-- File paths, modelled as strings. -/
abbrev FsPath := String

/-- Modelled from the spec: `HotReloadAction` of `hot_reload/config.rs`
(the file itself is not under `src/`; only its use sites are).  One of
`Reload`, `Restart`, `RunCommand(text)`. -/
inductive HotReloadAction where
  | Reload
  | Restart
  | RunCommand (cmd : String)
deriving Repr, DecidableEq

/-- Modelled from the spec: `FileRule` of `hot_reload/config.rs`: a path
pattern together with an action.  The pattern matcher is the opaque external
capability `matches(pattern, path) -> bool`, so a pattern is embedded directly
as its matching function (`f.path.matches_path(&path)` becomes `f.path p`). -/
structure FileRule where
  path : FsPath → Bool
  action : HotReloadAction

/-- Modelled from the spec: `HotReloadConfig` of `hot_reload/config.rs`:
the backing file path and the ordered rule list. -/
structure HotReloadConfig where
  path : FsPath
  files : List FileRule

/-- `Command` from `hot_reload/mod.rs`. -/
inductive Command where
  | Start
  | Stop
  | Rebuild
  | SendCommand (text : String)
  | WaitUntilExit
  | Bootstrap (path : FsPath)
deriving Repr, DecidableEq

/-- The event kinds the watcher callbacks discriminate on
(`EventKind::Create(_) | EventKind::Modify(_)`, `EventKind::Modify(_)`);
every other kind is collapsed into `Other`. -/
inductive EventKind where
  | Create
  | Modify
  | Remove
  | Other
deriving Repr, DecidableEq

/-- A settled debounced filesystem event: its kind and its paths. -/
structure DebouncedEvent where
  kind : EventKind
  paths : List FsPath
deriving Repr, DecidableEq

/-- The guard `matches!(e.kind, EventKind::Create(_) | EventKind::Modify(_))`
used by the config-tree and hot-reload-config watchers. -/
def isCreateOrModify : EventKind → Bool
  | .Create => true
  | .Modify => true
  | _ => false

/-- The commands enqueued for a matched rule action: the
`match &file.action` arms of `create_config_watcher`.  `Reload` sends
`reload confirm\n`; `Restart` sends `stop\nend\n`, waits, starts;
`RunCommand(cmd)` sends `format!("{cmd}\n")`, i.e. the newline is appended
unconditionally. -/
def actionCommands : HotReloadAction → List Command
  | .Reload => [Command.SendCommand "reload confirm\n"]
  | .Restart => [Command.SendCommand "stop\nend\n", Command.WaitUntilExit, Command.Start]
  | .RunCommand cmd => [Command.SendCommand (cmd ++ "\n")]

/-- The `for path in e.paths` loop body of `create_config_watcher`.
Returns the commands enqueued and whether the closure executed an early
`return` (a directory path, or a path matched by no rule, `return`s from the
whole callback rather than `continue`ing).  `isDir` is the filesystem
oracle for `path.is_dir()`. -/
def configPaths (cfg : HotReloadConfig) (isDir : FsPath → Bool) :
    List FsPath → List Command × Bool
  | [] => ([], false)
  | p :: rest =>
    if isDir p then
      ([], true)
    else
      match cfg.files.find? (fun f => f.path p) with
      | none => ([Command.Bootstrap p], true)
      | some file =>
        let r := configPaths cfg isDir rest
        (Command.Bootstrap p :: (actionCommands file.action ++ r.1), r.2)

/-- The callback of `DevSession::create_config_watcher` on a settled batch:
skips events that are not create/modify, processes each event's paths with
`configPaths`, and stops the whole batch when the loop body `return`ed. -/
def config_watcher_callback (cfg : HotReloadConfig) (isDir : FsPath → Bool) :
    List DebouncedEvent → List Command
  | [] => []
  | e :: rest =>
    if isCreateOrModify e.kind then
      let r := configPaths cfg isDir e.paths
      if r.2 then r.1
      else r.1 ++ config_watcher_callback cfg isDir rest
    else config_watcher_callback cfg isDir rest

/-- The callback of `DevSession::create_servertoml_watcher` on a settled
batch: for every `Modify` event it enqueues `SendCommand("stop\nend")`,
`WaitUntilExit`, `Rebuild`, `Start`; all other kinds are skipped. -/
def servertoml_watcher_callback : List DebouncedEvent → List Command
  | [] => []
  | e :: rest =>
    (if e.kind = EventKind.Modify then
      [Command.SendCommand "stop\nend", Command.WaitUntilExit,
       Command.Rebuild, Command.Start]
     else []) ++ servertoml_watcher_callback rest

/-- One event of the callback of `DevSession::create_hotreload_watcher`:
on a create/modify event the file is re-parsed (`HotReloadConfig::load_from`,
an external collaborator whose outcome is the `parse` oracle); on success the
snapshot behind the lock is replaced wholesale, on failure the error is
printed and the previous snapshot is kept. -/
def hotreload_watcher_step (parse : Except String HotReloadConfig)
    (current : HotReloadConfig) (e : DebouncedEvent) : HotReloadConfig :=
  if isCreateOrModify e.kind then
    match parse with
    | .ok updated => updated
    | .error _ => current
  else current

/-- How `DevSession::spawn_child` can fail: a Rust panic (the
`self.jar_name.as_ref().unwrap()` on `None`), a configuration error (the
failure mode the spec describes; never produced by the code), or an error
propagated with `?` (from `get_startup_method` or from `.spawn()`). -/
inductive SpawnFailure where
  | panicked (msg : String)
  | configError (msg : String)
  | errPropagated (msg : String)
deriving Repr, DecidableEq

/-- Outcomes of the two fallible external steps inside `spawn_child`:
`get_startup_method(...).await?` and `.spawn()?`. -/
structure SpawnOracle where
  startupRes : Except String Unit
  spawnRes : Except String Unit
deriving Repr

/-- `DevSession::spawn_child`.  The artifact name is unwrapped first
(`self.jar_name.as_ref().unwrap()` — a panic when absent, evaluated while
building the arguments of `get_startup_method`), then startup arguments are
obtained (fallible), then the process is spawned (fallible).  `id` is the
fresh handle the new child gets. -/
def spawn_child (jar_name : Option String) (o : SpawnOracle) (id : Nat) :
    Except SpawnFailure Nat :=
  match jar_name with
  | none => .error (SpawnFailure.panicked "called Option::unwrap on a None value")
  | some _ =>
    match o.startupRes with
    | .error e => .error (SpawnFailure.errPropagated e)
    | .ok _ =>
      match o.spawnRes with
      | .error e => .error (SpawnFailure.errPropagated e)
      | .ok _ => .ok id

/-- The errors that escape `DevSession::handle_commands` through `?` (or a
panic) and terminate the session: a failed/panicked spawn in the `Start` arm,
or a failed `build_all` in the `Rebuild` arm. -/
inductive SessionError where
  | spawnFailed (f : SpawnFailure)
  | rebuildFailed (msg : String)
deriving Repr, DecidableEq

/-- Observable effects of the session loop, in emission order. -/
inductive Effect where
  | spawned (id : Nat)
  | killed (id : Nat)
  | wroteStdin (text : String)
  | info (msg : String)
  | warn (msg : String)
  | printedLine (line : String)
deriving Repr, DecidableEq

/-- The branches of the inner `tokio::select!` of the `WaitUntilExit` arm:
the output-drain loop (which never terminates), `child.wait()`, the
30-second sleep, and `ctrl_c`. -/
inductive RaceWinner where
  | drain
  | exited
  | timeout
  | interrupted
deriving Repr, DecidableEq

/-- `should_kill`: the value the winning branch of the inner select yields
(`true` exactly for the timeout and the interrupt branches). -/
def should_kill : RaceWinner → Bool
  | .timeout => true
  | .interrupted => true
  | _ => false

/-- When each fallible branch of the inner race can resolve, in seconds from
entering the race: when (if ever) the child exits on its own, and when (if
ever) an interrupt arrives. -/
structure WaitRace where
  exitTime : Option Nat
  interruptTime : Option Nat
deriving Repr, DecidableEq

/-- Completion time of each branch of the inner select: the drain loop never
completes, the sleep completes at 30 seconds, the other two as the race
says. -/
def branchTime (r : WaitRace) : RaceWinner → Option Nat
  | .drain => none
  | .exited => r.exitTime
  | .timeout => some 30
  | .interrupted => r.interruptTime

/-- Branch `w` wins the inner select at time `t`: it completes at `t` and no
branch completes strictly earlier. -/
def winsAt (r : WaitRace) (w : RaceWinner) (t : Nat) : Prop :=
  branchTime r w = some t ∧ ∀ w2 t2, branchTime r w2 = some t2 → t ≤ t2

/-- The mutable state of `DevSession::handle_commands`: the optional child
handle, the optional stdout line stream, the artifact name, the `is_stopping`
flag, and a fresh-handle counter for spawning. -/
structure DevState where
  child : Option Nat
  stdout_lines : Option Nat
  jar_name : Option String
  is_stopping : Bool
  next_id : Nat
deriving Repr, DecidableEq

/-- Oracle data for handling one command: the outcomes of the external
collaborators this command may consult. -/
structure Oracle where
  spawn : SpawnOracle
  build : Except String String
  raceWinner : RaceWinner
  bootstrapRes : Except String Unit
  childHasStdin : Bool
deriving Repr

/-- The `match cmd` of `DevSession::handle_commands`, one command at a time.
Returns the new state and the effects, or the session-fatal error the arm
propagated with `?`. -/
def handle_one (st : DevState) (cmd : Command) (o : Oracle) :
    Except SessionError (DevState × List Effect) :=
  match cmd with
  | .Start =>
    match st.child with
    | some _ => .ok (st, [Effect.info "Starting server process..."])
    | none =>
      match spawn_child st.jar_name o.spawn st.next_id with
      | .error f => .error (SessionError.spawnFailed f)
      | .ok id =>
        .ok ({ st with child := some id, stdout_lines := some id,
                       next_id := st.next_id + 1 },
             [Effect.info "Starting server process...", Effect.spawned id])
  | .Stop =>
    .ok ({ st with child := none, stdout_lines := none },
         Effect.info "Killing server process..." ::
           (match st.child with
            | some c => [Effect.killed c]
            | none => []))
  | .SendCommand text =>
    .ok (st,
         Effect.info ("Sending command: " ++ text) ::
           (match st.child with
            | some _ => if o.childHasStdin then [Effect.wroteStdin text] else []
            | none => []))
  | .WaitUntilExit =>
    .ok ({ st with child := none, stdout_lines := none, is_stopping := false },
         Effect.info "Waiting for process exit..." ::
           ((match st.child with
             | some c => if should_kill o.raceWinner then [Effect.killed c] else []
             | none => []) ++ [Effect.info "Server process ended"]))
  | .Rebuild =>
    match o.build with
    | .error e => .error (SessionError.rebuildFailed e)
    | .ok name =>
      .ok ({ st with jar_name := some name }, [Effect.info "Building..."])
  | .Bootstrap path =>
    .ok (st,
         Effect.info ("Bootstrapping: " ++ path) ::
           (match o.bootstrapRes with
            | .ok _ => []
            | .error e => [Effect.warn ("Error while bootstrapping: " ++ e)]))

/-- One readiness of the outer `tokio::select!`: a command from the queue
(with the oracle for its external collaborators), a line of child output, a
line of operator stdin (with whether the child's stdin pipe is present), or
an interrupt signal. -/
inductive LoopEvent where
  | cmd (c : Command) (o : Oracle)
  | childLine (line : String)
  | stdinLine (line : String) (childHasStdin : Bool)
  | interrupt

/-- One iteration of the outer loop of `handle_commands`.  The third
component is `true` when the iteration executed `break`. -/
def step (st : DevState) (ev : LoopEvent) :
    Except SessionError (DevState × List Effect × Bool) :=
  match ev with
  | .cmd c o =>
    match handle_one st c o with
    | .error e => .error e
    | .ok (st2, effs) => .ok (st2, effs, false)
  | .childLine line =>
    match st.stdout_lines with
    | some _ => .ok (st, [Effect.printedLine line.trim], false)
    | none => .ok (st, [], false)
  | .stdinLine line hasStdin =>
    .ok (st,
         Effect.info ("Sending command: " ++ line.trim) ::
           (match st.child with
            | some _ =>
              if hasStdin then [Effect.wroteStdin (line.trim ++ "\n")] else []
            | none => []),
         false)
  | .interrupt =>
    if st.is_stopping then .ok (st, [], false)
    else .ok (st, [Effect.info "Stopping development session..."], true)

/-- The outer loop of `handle_commands` run over a stream of readiness
events: stops at the first `break` (third component `true`) or at the first
propagated error, otherwise consumes the whole stream (third component
`false`, the loop is still running). -/
def runEvents (st : DevState) :
    List LoopEvent → Except SessionError (DevState × List Effect × Bool)
  | [] => .ok (st, [], false)
  | ev :: rest =>
    match step st ev with
    | .error e => .error e
    | .ok (st2, effs, true) => .ok (st2, effs, true)
    | .ok (st2, effs, false) =>
      match runEvents st2 rest with
      | .error e => .error e
      | .ok (st3, effs2, b) => .ok (st3, effs ++ effs2, b)

/-- The code after the loop of `handle_commands`: a lingering child is
force-killed before the session returns. -/
def final_kill (st : DevState) : DevState × List Effect :=
  match st.child with
  | some c =>
    ({ st with child := none },
     [Effect.info "Killing undead child process...", Effect.killed c])
  | none => (st, [])

/-- `DevSession::handle_commands` over an event stream: run the loop; when it
exits through `break`, force-kill a lingering child.  A propagated error
(`?`) returns immediately, without the final kill. -/
def handle_commands (st : DevState) (evs : List LoopEvent) :
    Except SessionError (DevState × List Effect × Bool) :=
  match runEvents st evs with
  | .error e => .error e
  | .ok (st2, effs, true) =>
    let f := final_kill st2
    .ok (f.1, effs ++ f.2, true)
  | .ok (st2, effs, false) => .ok (st2, effs, false)

/-- The initial state of `handle_commands` (`child = None`,
`stdout_lines = None`, `is_stopping = false`), with the session's initial
`jar_name` (set to `None` by the `dev` entry point). -/
def initialState : DevState :=
  { child := none, stdout_lines := none, jar_name := none,
    is_stopping := false, next_id := 0 }

/-- Does this string end with exactly one newline character? -/
def exactlyOneTrailingNewline (s : String) : Bool :=
  (s.data.getLast? == some (Char.ofNat 10)) &&
  !(s.data.dropLast.getLast? == some (Char.ofNat 10))

/-- Is this spawn outcome the configuration-error failure mode? -/
def isConfigFailure : Except SpawnFailure Nat → Bool
  | .error (SpawnFailure.configError _) => true
  | _ => false

/-- A sample oracle whose rebuild fails. -/
def oracleBuildFails : Oracle :=
  ⟨⟨Except.ok (), Except.ok ()⟩, Except.error "build failed",
   RaceWinner.drain, Except.ok (), true⟩

/-- A sample oracle where every collaborator succeeds. -/
def oracleAllOk : Oracle :=
  ⟨⟨Except.ok (), Except.ok ()⟩, Except.ok "server.jar",
   RaceWinner.drain, Except.ok (), true⟩

/-- A sample state with a running child of handle 0. -/
def runningState : DevState :=
  { child := some 0, stdout_lines := some 0, jar_name := some "server.jar",
    is_stopping := false, next_id := 1 }

/-- A sample configuration: one rule matching exactly `config/a.yml` with the
`Reload` action. -/
def cfgReloadRule : HotReloadConfig :=
  ⟨"hotreload.toml", [⟨fun p => p == "config/a.yml", HotReloadAction.Reload⟩]⟩

/-- A sample directory oracle: exactly `config/dir` is a directory. -/
def isDirOnlyDir : FsPath → Bool := fun p => p == "config/dir"

/-- C1, counterexample: when `build_all` fails while handling `Rebuild`, the
event loop does NOT continue: the whole run of `handle_commands` returns the
error, and the `Start` command queued right after the failing `Rebuild` is
never handled (matching the `?` on `self.builder.build_all().await?`). -/
theorem C1_counterexample :
    runEvents initialState
      [LoopEvent.cmd Command.Rebuild oracleBuildFails,
       LoopEvent.cmd Command.Start oracleAllOk] =
      Except.error (SessionError.rebuildFailed "build failed") := rfl

/-- C1, amended: a failure of the external rebuild collaborator propagates
out of the event loop as a session-fatal error: `handle_commands` returns the
error immediately and no later event of the stream is processed. -/
theorem C1_rebuild_failure_fatal (st : DevState) (o : Oracle) (msg : String)
    (evs : List LoopEvent) (hb : o.build = Except.error msg) :
    runEvents st (LoopEvent.cmd Command.Rebuild o :: evs) =
      Except.error (SessionError.rebuildFailed msg) := by
  simp [runEvents, step, handle_one, hb]

/-- C1, witness for the amended theorem at a concrete state and oracle. -/
theorem C1_rebuild_failure_fatal_witness :
    runEvents initialState
      [LoopEvent.cmd Command.Rebuild oracleBuildFails,
       LoopEvent.cmd Command.Start oracleAllOk] =
      Except.error (SessionError.rebuildFailed "build failed") :=
  C1_rebuild_failure_fatal initialState oracleBuildFails "build failed"
    [LoopEvent.cmd Command.Start oracleAllOk] rfl

/-- C2, counterexample: spawning with no artifact name known fails by a Rust
panic (`Option::unwrap` on `None`), not by a configuration error. -/
theorem C2_counterexample :
    spawn_child none ⟨Except.ok (), Except.ok ()⟩ 0 =
      Except.error
        (SpawnFailure.panicked "called Option::unwrap on a None value")
    ∧ isConfigFailure (spawn_child none ⟨Except.ok (), Except.ok ()⟩ 0) =
        false :=
  ⟨rfl, rfl⟩

/-- C2, amended: `spawn_child` requires an artifact name to already be known;
when none is known it panics (the `unwrap` on `jar_name`), before any other
failure mode can occur, rather than returning a configuration error. -/
theorem C2_spawn_panics_without_jar (o : SpawnOracle) (id : Nat) :
    spawn_child none o id =
      Except.error
        (SpawnFailure.panicked "called Option::unwrap on a None value") := rfl

/-- C3, counterexample: the server-config watcher enqueues
`SendCommand("stop\nend")`, whose text ends with no newline at all, and a
`RunCommand` rule whose text already ends with a newline gets a second one
appended — so not every command text written to the child ends with exactly
one newline, and the newline is not appended only "where the text lacks
one".  The last conjunct shows the text is then written to the child's stdin
verbatim, without a trailing newline. -/
theorem C3_counterexample :
    servertoml_watcher_callback [⟨EventKind.Modify, ["server.toml"]⟩] =
      [Command.SendCommand "stop\nend", Command.WaitUntilExit,
       Command.Rebuild, Command.Start]
    ∧ exactlyOneTrailingNewline "stop\nend" = false
    ∧ actionCommands (HotReloadAction.RunCommand "say hi\n") =
        [Command.SendCommand "say hi\n\n"]
    ∧ exactlyOneTrailingNewline "say hi\n\n" = false
    ∧ handle_one runningState (Command.SendCommand "stop\nend") oracleAllOk =
        Except.ok (runningState,
          [Effect.info "Sending command: stop\nend",
           Effect.wroteStdin "stop\nend"]) :=
  ⟨rfl, by decide, rfl, by decide, rfl⟩

/-- C3, amended: the `SendCommand` arm writes the text to the child's input
stream verbatim (no newline is added at write time), and the `RunCommand`
rule arm appends a newline unconditionally — even when the rule's text
already ends with one — so command texts written to the child need not end
with exactly one newline. -/
theorem C3_sendcommand_verbatim (st : DevState) (c : Nat) (o : Oracle)
    (text : String) (hc : st.child = some c) (hs : o.childHasStdin = true) :
    handle_one st (Command.SendCommand text) o =
      Except.ok (st, [Effect.info ("Sending command: " ++ text),
                      Effect.wroteStdin text])
    ∧ ∀ cmd, actionCommands (HotReloadAction.RunCommand cmd) =
        [Command.SendCommand (cmd ++ "\n")] := by
  constructor
  · simp [handle_one, hc, hs]
  · intro cmd
    rfl

/-- C3, witness for the amended theorem at a concrete state and oracle. -/
theorem C3_sendcommand_verbatim_witness :
    handle_one runningState (Command.SendCommand "say hi") oracleAllOk =
      Except.ok (runningState,
        [Effect.info "Sending command: say hi", Effect.wroteStdin "say hi"])
    ∧ ∀ cmd, actionCommands (HotReloadAction.RunCommand cmd) =
        [Command.SendCommand (cmd ++ "\n")] :=
  C3_sendcommand_verbatim runningState 0 oracleAllOk "say hi" rfl rfl

/-- C4, counterexample: in a settled batch whose first create/modify event is
on a directory, a later event on a regular file that matches a `Reload` rule
emits nothing at all — the `return` on `path.is_dir()` aborts the whole
callback, so `Bootstrap` is not emitted unconditionally for every settled
create/modify event.  The second conjunct shows the same file event alone
would have produced the bootstrap and the reload command. -/
theorem C4_counterexample :
    config_watcher_callback cfgReloadRule isDirOnlyDir
      [⟨EventKind.Modify, ["config/dir"]⟩,
       ⟨EventKind.Modify, ["config/a.yml"]⟩] = []
    ∧ config_watcher_callback cfgReloadRule isDirOnlyDir
        [⟨EventKind.Modify, ["config/a.yml"]⟩] =
        [Command.Bootstrap "config/a.yml",
         Command.SendCommand "reload confirm\n"] :=
  ⟨rfl, rfl⟩

/-- C4, amended: per processed create/modify path, the claimed behavior holds
until the callback aborts: a directory path emits nothing and aborts the
entire remaining batch; a non-directory path emits `Bootstrap(path)` first,
then the commands of the first matching rule in declaration order (`Reload`
mapping to `SendCommand("reload confirm\n")`); a non-directory path matched
by no rule emits only its `Bootstrap` and also aborts the remaining batch. -/
theorem C4_single_event_behavior (cfg : HotReloadConfig)
    (isDir : FsPath → Bool) (k : EventKind) (p : FsPath)
    (rest : List DebouncedEvent) (hk : isCreateOrModify k = true) :
    (isDir p = true →
      config_watcher_callback cfg isDir (⟨k, [p]⟩ :: rest) = [])
    ∧ (isDir p = false →
        (∀ file, cfg.files.find? (fun f => f.path p) = some file →
          config_watcher_callback cfg isDir [⟨k, [p]⟩] =
            Command.Bootstrap p :: actionCommands file.action)
        ∧ (cfg.files.find? (fun f => f.path p) = none →
            config_watcher_callback cfg isDir (⟨k, [p]⟩ :: rest) =
              [Command.Bootstrap p]))
    ∧ actionCommands HotReloadAction.Reload =
        [Command.SendCommand "reload confirm\n"] := by
  refine ⟨?_, ?_, rfl⟩
  · intro hd
    simp [config_watcher_callback, configPaths, hk, hd]
  · intro hd
    constructor
    · intro file hf
      simp [config_watcher_callback, configPaths, hk, hf, hd]
    · intro hf
      simp [config_watcher_callback, configPaths, hk, hf, hd]

/-- C4, witness for the amended theorem: a file matching no rule, in a batch
with a trailing extra event, yields only its bootstrap. -/
theorem C4_single_event_behavior_witness :
    config_watcher_callback cfgReloadRule isDirOnlyDir
      [⟨EventKind.Modify, ["config/b.yml"]⟩,
       ⟨EventKind.Modify, ["config/a.yml"]⟩] =
      [Command.Bootstrap "config/b.yml"] :=
  (((C4_single_event_behavior cfgReloadRule isDirOnlyDir EventKind.Modify
      "config/b.yml" [⟨EventKind.Modify, ["config/a.yml"]⟩] rfl).2.1) rfl).2 rfl

/-- C5: a settled `Modify` event seen by the server-config watcher enqueues
exactly `SendCommand("stop\nend")`, `WaitUntilExit`, `Rebuild`, `Start`, in
that order, before whatever the rest of the batch contributes. -/
theorem C5_servertoml_modify_sequence (e : DebouncedEvent)
    (rest : List DebouncedEvent) (hk : e.kind = EventKind.Modify) :
    servertoml_watcher_callback (e :: rest) =
      [Command.SendCommand "stop\nend", Command.WaitUntilExit,
       Command.Rebuild, Command.Start]
        ++ servertoml_watcher_callback rest := by
  simp [servertoml_watcher_callback, hk]

/-- C5, witness at a concrete event. -/
theorem C5_servertoml_modify_sequence_witness :
    servertoml_watcher_callback [⟨EventKind.Modify, ["server.toml"]⟩] =
      [Command.SendCommand "stop\nend", Command.WaitUntilExit,
       Command.Rebuild, Command.Start]
        ++ servertoml_watcher_callback [] :=
  C5_servertoml_modify_sequence ⟨EventKind.Modify, ["server.toml"]⟩ [] rfl

/-- C6: handling `WaitUntilExit` always succeeds and leaves the session with
no child handle and no stdout stream; when a child was present and the inner
race was won by the timeout or the interrupt branch, the child is forcibly
killed.  Moreover any winning branch of the inner race resolves within the
30-second timeout (so the command returns within timeout plus overhead even
if the child never exits), and the never-terminating drain branch can never
be the winner. -/
theorem C6_waituntilexit_bounded (st : DevState) (o : Oracle) :
    (∃ st2 effs, handle_one st Command.WaitUntilExit o = Except.ok (st2, effs)
      ∧ st2.child = none ∧ st2.stdout_lines = none
      ∧ (∀ c, st.child = some c → should_kill o.raceWinner = true →
          Effect.killed c ∈ effs))
    ∧ (∀ r w t, winsAt r w t → t ≤ 30 ∧ w ≠ RaceWinner.drain) := by
  constructor
  · refine ⟨_, _, rfl, rfl, rfl, ?_⟩
    intro c hc hk
    simp [hc, hk]
  · rintro r w t ⟨hw, hmin⟩
    refine ⟨hmin RaceWinner.timeout 30 rfl, ?_⟩
    rintro rfl
    simp [branchTime] at hw

/-- C7: an interrupt that arrives while `WaitUntilExit` is in flight (the
inner race is won by its `ctrl_c` branch) kills the child and resolves that
wait without breaking the outer loop; an interrupt that arrives at the outer
select while not stopping breaks the outer loop, the remaining events are
never processed, and the lingering child is force-killed before
`handle_commands` returns. -/
theorem C7_interrupt_disambiguation (st : DevState) (c : Nat) (o : Oracle)
    (evs : List LoopEvent) (hc : st.child = some c)
    (hw : o.raceWinner = RaceWinner.interrupted)
    (hns : st.is_stopping = false) :
    (∃ st2 effs, step st (LoopEvent.cmd Command.WaitUntilExit o) =
        Except.ok (st2, effs, false)
      ∧ st2.child = none ∧ Effect.killed c ∈ effs)
    ∧ (∃ st3 effs, handle_commands st (LoopEvent.interrupt :: evs) =
        Except.ok (st3, effs, true)
      ∧ st3.child = none ∧ Effect.killed c ∈ effs) := by
  constructor
  · refine ⟨_, _, rfl, rfl, ?_⟩
    simp [hc, hw, should_kill]
  · refine ⟨{ st with child := none },
      [Effect.info "Stopping development session...",
       Effect.info "Killing undead child process...", Effect.killed c],
      ?_, rfl, ?_⟩
    · simp [handle_commands, runEvents, step, hns, final_kill, hc]
    · simp

/-- C7, witness at a concrete state, oracle and event stream. -/
theorem C7_interrupt_disambiguation_witness :
    (∃ st2 effs,
      step runningState (LoopEvent.cmd Command.WaitUntilExit
        ⟨⟨Except.ok (), Except.ok ()⟩, Except.ok "server.jar",
         RaceWinner.interrupted, Except.ok (), true⟩) =
        Except.ok (st2, effs, false)
      ∧ st2.child = none ∧ Effect.killed 0 ∈ effs)
    ∧ (∃ st3 effs, handle_commands runningState
        (LoopEvent.interrupt :: [LoopEvent.cmd Command.Start oracleAllOk]) =
        Except.ok (st3, effs, true)
      ∧ st3.child = none ∧ Effect.killed 0 ∈ effs) :=
  C7_interrupt_disambiguation runningState 0
    ⟨⟨Except.ok (), Except.ok ()⟩, Except.ok "server.jar",
     RaceWinner.interrupted, Except.ok (), true⟩
    [LoopEvent.cmd Command.Start oracleAllOk] rfl rfl rfl

/-- Helper for C8: with a child already running, a stream made only of `Start`
commands leaves the state exactly unchanged and emits only the per-command
status line. -/
theorem runEvents_start_running (os : List Oracle) (st : DevState) (c : Nat)
    (hc : st.child = some c) :
    runEvents st (os.map (fun o => LoopEvent.cmd Command.Start o)) =
      Except.ok (st,
        os.map (fun _ => Effect.info "Starting server process..."), false) := by
  induction os with
  | nil => rfl
  | cons o os ih =>
    simp [runEvents, step, handle_one, hc, ih]

/-- C8: for every sequence of `Start` commands processed while a child is
already running, the loop neither errors nor breaks, the child handle is
exactly the original one, and no `spawned` effect is ever emitted — the
session never owns a second child. -/
theorem C8_at_most_one_child (st : DevState) (c : Nat) (os : List Oracle)
    (hc : st.child = some c) :
    ∃ effs, runEvents st (os.map (fun o => LoopEvent.cmd Command.Start o)) =
        Except.ok (st, effs, false)
      ∧ st.child = some c ∧ ∀ id, Effect.spawned id ∉ effs := by
  refine ⟨_, runEvents_start_running os st c hc, hc, ?_⟩
  intro id hmem
  simp [List.mem_map] at hmem

/-- C8, witness: three `Start` commands against a running child. -/
theorem C8_at_most_one_child_witness :
    ∃ effs, runEvents runningState
        ([oracleAllOk, oracleAllOk, oracleBuildFails].map
          (fun o => LoopEvent.cmd Command.Start o)) =
        Except.ok (runningState, effs, false)
      ∧ runningState.child = some 0 ∧ ∀ id, Effect.spawned id ∉ effs :=
  C8_at_most_one_child runningState 0
    [oracleAllOk, oracleAllOk, oracleBuildFails] rfl

/-- C9: when re-parsing the hot-reload configuration fails after a settled
create/modify event, the previous snapshot is kept and subsequent config-tree
action resolutions behave exactly as before; when the parse succeeds, the
snapshot is replaced wholesale by the parsed value.  The handler is a total
function, so the watcher cannot crash the session. -/
theorem C9_hotreload_parse_failure (cfg updated : HotReloadConfig)
    (e : DebouncedEvent) (msg : String) (isDir : FsPath → Bool)
    (evs : List DebouncedEvent) (hk : isCreateOrModify e.kind = true) :
    hotreload_watcher_step (Except.error msg) cfg e = cfg
    ∧ config_watcher_callback
        (hotreload_watcher_step (Except.error msg) cfg e) isDir evs =
        config_watcher_callback cfg isDir evs
    ∧ hotreload_watcher_step (Except.ok updated) cfg e = updated := by
  refine ⟨?_, ?_, ?_⟩ <;> simp [hotreload_watcher_step, hk]

/-- C9, witness at a concrete snapshot, event and parse outcome. -/
theorem C9_hotreload_parse_failure_witness :
    hotreload_watcher_step (Except.error "bad toml") cfgReloadRule
        ⟨EventKind.Modify, ["hotreload.toml"]⟩ = cfgReloadRule
    ∧ config_watcher_callback
        (hotreload_watcher_step (Except.error "bad toml") cfgReloadRule
          ⟨EventKind.Modify, ["hotreload.toml"]⟩) isDirOnlyDir
        [⟨EventKind.Modify, ["config/a.yml"]⟩] =
        config_watcher_callback cfgReloadRule isDirOnlyDir
          [⟨EventKind.Modify, ["config/a.yml"]⟩]
    ∧ hotreload_watcher_step (Except.ok ⟨"hotreload.toml", []⟩) cfgReloadRule
        ⟨EventKind.Modify, ["hotreload.toml"]⟩ = ⟨"hotreload.toml", []⟩ :=
  C9_hotreload_parse_failure cfgReloadRule ⟨"hotreload.toml", []⟩
    ⟨EventKind.Modify, ["hotreload.toml"]⟩ "bad toml" isDirOnlyDir
    [⟨EventKind.Modify, ["config/a.yml"]⟩] rfl

/-- C10: with no child present, each of `Stop`, `SendCommand`,
`WaitUntilExit` is handled without error and without breaking the loop, the
child handle stays absent, and no write, kill or spawn effect is produced. -/
theorem C10_noprocess_noops (st : DevState) (o : Oracle) (text : String)
    (hc : st.child = none) :
    ∀ cmd ∈ [Command.Stop, Command.SendCommand text, Command.WaitUntilExit],
      ∃ st2 effs, step st (LoopEvent.cmd cmd o) = Except.ok (st2, effs, false)
        ∧ st2.child = none
        ∧ (∀ s, Effect.wroteStdin s ∉ effs)
        ∧ (∀ id, Effect.killed id ∉ effs)
        ∧ (∀ id2, Effect.spawned id2 ∉ effs) := by
  intro cmd hcmd
  simp only [List.mem_cons, List.not_mem_nil, or_false] at hcmd
  rcases hcmd with rfl | rfl | rfl
  · refine ⟨{ st with child := none, stdout_lines := none },
            [Effect.info "Killing server process..."], ?_, rfl, ?_, ?_, ?_⟩
    · simp [step, handle_one, hc]
    · intro s
      simp
    · intro id
      simp
    · intro id2
      simp
  · refine ⟨st, [Effect.info ("Sending command: " ++ text)], ?_, hc, ?_, ?_, ?_⟩
    · simp [step, handle_one, hc]
    · intro s
      simp
    · intro id
      simp
    · intro id2
      simp
  · refine ⟨{ st with child := none, stdout_lines := none, is_stopping := false },
            [Effect.info "Waiting for process exit...",
             Effect.info "Server process ended"], ?_, rfl, ?_, ?_, ?_⟩
    · simp [step, handle_one, hc]
    · intro s
      simp
    · intro id
      simp
    · intro id2
      simp

/-- C10, witness at the initial state, instantiated at the `Stop` command. -/
theorem C10_noprocess_noops_witness :
    ∃ st2 effs, step initialState (LoopEvent.cmd Command.Stop oracleAllOk) =
        Except.ok (st2, effs, false)
      ∧ st2.child = none
      ∧ (∀ s, Effect.wroteStdin s ∉ effs)
      ∧ (∀ id, Effect.killed id ∉ effs)
      ∧ (∀ id2, Effect.spawned id2 ∉ effs) :=
  C10_noprocess_noops initialState oracleAllOk "list" rfl Command.Stop
    (by simp)

end Mcman
